import Mathlib

set_option maxRecDepth 4000

/-!
Formal model of the Kora financial state engine.

This file gives a shallow embedding of the Safe-Spend
calculations (the mobile `FinanceEngine`, the backend `FinanceService`, and
the inline helper of the backend AI route), of the spending-pattern store
(`analyzePatterns`, `calculateRiskScore`, `getHighRiskAlert`) and of the
proactive check-in selector (`CheckInService.shouldShowProactiveMessage`),
together with theorems settling the specification claims about them.

Modelling conventions:
* JS `Date` values are modelled as proleptic-Gregorian calendar days
  (`CivilDate`); time-of-day is dropped because every difference the code
  takes is `Math.ceil((target - now) / DAY_MS)` with `target` at local
  midnight, which equals the plain calendar-day difference for any
  time-of-day of `now`.  Time zones and DST are not modelled.
* Monetary values in the finance engine are modelled as `Int`
  (`Math.floor(a / b)` becomes `Int.fdiv`); the pattern analyzer, which
  takes genuine averages, uses `ℚ` (JS float literals `1.3`, `1.5`, `0.8`
  are read as the decimal fractions they denote).
-/

namespace Kora

/-! ### Calendar model (JS `Date` semantics)

`new Date(y, m, d)` first normalises the month index `m` by carrying
`⌊m / 12⌋` into the year, and then offsets `d - 1` days from the first day
of the resulting month (so `d = 0` is the last day of the previous month,
`d = 32` overflows into the following month, and so on).
-/

def isLeap (y : Int) : Bool := (y % 4 == 0 && y % 100 != 0) || y % 400 == 0

/-- Number of days of month `m` (0-indexed, January = 0) of year `y`. -/
def monthLength (y : Int) : Nat → Int
  | 1 => if isLeap y then 29 else 28
  | 3 => 30
  | 5 => 30
  | 8 => 30
  | 10 => 30
  | _ => 31

/-- Days in year `y` before the first day of month `m` (0-indexed). -/
def daysBeforeMonth (y : Int) : Nat → Int
  | 0 => 0
  | m + 1 => daysBeforeMonth y m + monthLength y m

/-- Linear day count of January 1st of year `y` (arbitrary epoch; only
differences of day numbers are ever used, so the epoch cancels). -/
def daysBeforeYear (y : Int) : Int :=
  365 * y + (y - 1).fdiv 4 - (y - 1).fdiv 100 + (y - 1).fdiv 400

/-- A calendar date in JS conventions: `month` is 0-indexed (`getMonth`),
`day` is 1-based (`getDate`). -/
structure CivilDate where
  year : Int
  month : Nat
  day : Int
deriving DecidableEq, Repr

/-- The date is an actual calendar day (what any JS `Date` object stores
after normalisation). -/
def CivilDate.Valid (c : CivilDate) : Prop :=
  c.month < 12 ∧ 1 ≤ c.day ∧ c.day ≤ monthLength c.year c.month

instance (c : CivilDate) : Decidable c.Valid := by
  unfold CivilDate.Valid; infer_instance

/-- Day number of `new Date(y, m, d).getTime() / DAY_MS` for arbitrary
integer `m` and `d` (month carried into the year, day taken as a linear
offset from the first of the month). -/
def jsDayNumber (y m d : Int) : Int :=
  daysBeforeYear (y + m.fdiv 12) + daysBeforeMonth (y + m.fdiv 12) (m % 12).toNat + d

def dayNumber (c : CivilDate) : Int := jsDayNumber c.year c.month c.day

def nextDay (c : CivilDate) : CivilDate :=
  if c.day < monthLength c.year c.month then ⟨c.year, c.month, c.day + 1⟩
  else if c.month = 11 then ⟨c.year + 1, 0, 1⟩
  else ⟨c.year, c.month + 1, 1⟩

def prevDay (c : CivilDate) : CivilDate :=
  if 1 < c.day then ⟨c.year, c.month, c.day - 1⟩
  else if c.month = 0 then ⟨c.year - 1, 11, monthLength (c.year - 1) 11⟩
  else ⟨c.year, c.month - 1, monthLength c.year (c.month - 1)⟩

def addDays (c : CivilDate) : Nat → CivilDate
  | 0 => c
  | n + 1 => addDays (nextDay c) n

def subDays (c : CivilDate) : Nat → CivilDate
  | 0 => c
  | n + 1 => subDays (prevDay c) n

/-- The normalised `CivilDate` stored by `new Date(y, m, d)`. -/
def jsMkDate (y m d : Int) : CivilDate :=
  let first : CivilDate := ⟨y + m.fdiv 12, (m % 12).toNat, 1⟩
  if 1 ≤ d then addDays first (d - 1).toNat else subDays first (1 - d).toNat

/-- JS `getDay()`: 0 = Sunday … 6 = Saturday (1970-01-01 was a Thursday). -/
def getDay (c : CivilDate) : Nat :=
  ((dayNumber c - dayNumber ⟨1970, 0, 1⟩ + 4) % 7).toNat

/-! ### Fixed expenses -/

/-- A recurring monthly obligation.  The mobile code spells the field
`dueDay`, the backend spells it `due_day`; both have the same `Option`
semantics (`null`/absent means no tracked due date). -/
structure FixedExpense where
  dueDay : Option Int
  amount : Int
deriving DecidableEq, Repr

/-! ### Mobile implementation: `kora-app/services/finance-engine.ts` -/

namespace FinanceEngine

/-- Model of `FinanceEngine.calculateDaysToPayday`.  The source reads `new Date()`;
here `today` is that ambient date.  `Math.ceil(diffTime / DAY_MS)` equals
the calendar-day difference (see module comment), and the final
`diffDays > 0 ? diffDays : 0` is `max 0`. -/
def calculateDaysToPayday (today : CivilDate) (paydayDay : Int) : Int :=
  let target :=
    if today.day > paydayDay then jsDayNumber today.year ((today.month : Int) + 1) paydayDay
    else jsDayNumber today.year (today.month : Int) paydayDay
  max 0 (target - dayNumber today)

/-- Model of `FinanceEngine.calculateUpcomingBills`.  Note `if (!expense.dueDay) continue`
skips both `null` and `0`. -/
def calculateUpcomingBills (expenses : List FixedExpense) (today : CivilDate)
    (paydayDay : Int) : Int :=
  expenses.foldl (fun acc e =>
    match e.dueDay with
    | none => acc
    | some dd =>
      if dd = 0 then acc
      else if today.day < paydayDay then
        if dd > today.day ∧ dd < paydayDay then acc + e.amount else acc
      else if dd > today.day then acc + e.amount
      else if dd < paydayDay then acc + e.amount
      else acc) 0

/-- Model of `FinanceEngine.calculateSafeSpend` (`Math.floor` is `Int.fdiv`). -/
def calculateSafeSpend (today : CivilDate) (balance : Int)
    (fixedExpenses : List FixedExpense) (daysToPayday : Int) (paydayDay : Int) : Int :=
  if daysToPayday ≤ 1 then balance
  else
    let upcomingBills := calculateUpcomingBills fixedExpenses today paydayDay
    let effectiveBalance := balance - upcomingBills
    if effectiveBalance ≤ 0 then 0
    else effectiveBalance.fdiv daysToPayday

/-- The composite Safe Spend of the mobile engine: callers feed
`calculateDaysToPayday` into `calculateSafeSpend`. -/
def safeSpendState (today : CivilDate) (balance : Int)
    (expenses : List FixedExpense) (paydayDay : Int) : Int :=
  calculateSafeSpend today balance expenses (calculateDaysToPayday today paydayDay) paydayDay

end FinanceEngine

/-! ### Backend service implementation: `kora-backend/src/services/finance.service.ts` -/

namespace FinanceService

/-- Model of `FinanceService.calculateDaysToPayday`: when the current day-of-month has
reached `paydayDay`, target the payday of the next month; if the constructed date
overflowed past the intended month (`getMonth()` check), `setDate(0)` pulls
it back to the last day of the intended month. -/
def calculateDaysToPayday (today : CivilDate) (paydayDay : Int) : Int :=
  if today.day < paydayDay then paydayDay - today.day
  else
    let t0 := jsMkDate today.year ((today.month : Int) + 1) paydayDay
    let t1 := if t0.month ≠ (today.month + 1) % 12 then jsMkDate t0.year (t0.month : Int) 0 else t0
    dayNumber t1 - dayNumber today

/-- Model of `FinanceService.calculateUpcomingBills` (same window logic as the mobile
engine; `if (!expense.due_day) continue` skips `null` and `0`). -/
def calculateUpcomingBills (expenses : List FixedExpense) (today : CivilDate)
    (paydayDay : Int) : Int :=
  expenses.foldl (fun acc e =>
    match e.dueDay with
    | none => acc
    | some dd =>
      if dd = 0 then acc
      else if today.day < paydayDay then
        if dd > today.day ∧ dd < paydayDay then acc + e.amount else acc
      else if dd > today.day then acc + e.amount
      else if dd < paydayDay then acc + e.amount
      else acc) 0

/-- The Safe-Spend portion of `FinanceService.calculateFinanceState`
(lines 29–47): divisor is forced to at least 1, the quotient is floored,
and a negative result is clamped to 0. -/
def safeSpendOfFinanceState (today : CivilDate) (balance : Int)
    (expenses : List FixedExpense) (paydayDay : Int) : Int :=
  let daysToPayday := calculateDaysToPayday today paydayDay
  let upcomingBillsAmount := calculateUpcomingBills expenses today paydayDay
  let effectiveBalance := balance - upcomingBillsAmount
  let divisor := if daysToPayday < 1 then 1 else daysToPayday
  let safeSpendToday := effectiveBalance.fdiv divisor
  if safeSpendToday < 0 then 0 else safeSpendToday

end FinanceService

/-! ### Backend AI-route inline implementation: `kora-backend/src/routes/ai` -/

namespace AiRoute

/-- The inline days-to-payday of `calculateFinanceState` in the AI route:
no month-overflow correction at all. -/
def calculateDaysToPayday (today : CivilDate) (payday : Int) : Int :=
  if today.day < payday then payday - today.day
  else jsDayNumber today.year ((today.month : Int) + 1) payday - dayNumber today

/-- The inline Safe Spend of the AI route: `daysToPayday > 0 ?
Math.floor(availableNow / daysToPayday) : availableNow` — upcoming bills
are ignored entirely. -/
def safeSpendOfFinanceState (today : CivilDate) (balance : Int) (payday : Int) : Int :=
  let daysToPayday := calculateDaysToPayday today payday
  if daysToPayday > 0 then balance.fdiv daysToPayday else balance

end AiRoute

/-- Model of the expression `profile.payday || 1` in the backend callers: a missing (or
zero, since `0` is falsy) payday is silently replaced by `1`. -/
def resolvePayday : Option Int → Int
  | none => 1
  | some p => if p = 0 then 1 else p

/-- Year and month (0-indexed) of the month after `(y, m)`. -/
def nextMonthYear (y : Int) (m : Nat) : Int := if m = 11 then y + 1 else y

def nextMonthMonth (m : Nat) : Nat := if m = 11 then 0 else m + 1

/-! ### Pattern store: `stores/pattern-store.ts`

Transactions carry an amount, a category and a date; amounts and all
averages are modelled in `ℚ`.  The float literals `1.3`, `1.5` and `0.8`
of the source are read as `13/10`, `3/2` and `4/5`.
-/

structure Transaction where
  amount : ℚ
  category : String
  date : CivilDate
deriving DecidableEq, Repr

structure TopCategory where
  category : String
  avgMonthly : ℚ
  trend : String
deriving DecidableEq, Repr

structure SpendingPattern where
  avgDailySpend : ℚ
  avgWeekendSpend : ℚ
  avgWeekdaySpend : ℚ
  highRiskDays : List String
  highRiskTimes : List String
  topCategories : List TopCategory
  overspendTriggers : List String
  currentStreak : Int
  riskScore : Int
  lastAnalyzedAt : Option CivilDate
deriving DecidableEq, Repr

def DEFAULT_PATTERN : SpendingPattern :=
  { avgDailySpend := 0
    avgWeekendSpend := 0
    avgWeekdaySpend := 0
    highRiskDays := []
    highRiskTimes := []
    topCategories := []
    overspendTriggers := []
    currentStreak := 0
    riskScore := 50
    lastAnalyzedAt := none }

def DAYS_OF_WEEK : List String :=
  ["Sunday", "Monday", "Tuesday", "Wednesday", "Thursday", "Friday", "Saturday"]

/-- Weekday name lookup, `DAYS_OF_WEEK[date.getDay()]`. -/
def dayName (c : CivilDate) : String := DAYS_OF_WEEK.getD (getDay c) ""

/-- The snapshot of the transaction store that the pattern store reads
(`useTransactionStore.getState()`): the transaction list plus the financial
fields consumed by `calculateRiskScore` (`spentThisMonth` is the value of
`getSpentThisMonth()` on that snapshot). -/
structure TransactionStoreState where
  transactions : List Transaction
  safeSpendToday : ℚ
  daysToPayday : ℚ
  currentBalance : ℚ
  spentThisMonth : ℚ
deriving DecidableEq, Repr

/-- Average of a bucket: `amounts.length > 0 ? amounts.reduce((a, b) => a + b, 0) / amounts.length : 0`. -/
def mean (l : List ℚ) : ℚ := if l.length > 0 then l.sum / l.length else 0

/-- The `byDayOfWeek` bucket of weekday `i` (push order = list order). -/
def amountsOnWeekday (ts : List Transaction) (i : Nat) : List ℚ :=
  (ts.filter (fun t => getDay t.date == i)).map (fun t => t.amount)

def avgByDayOf (ts : List Transaction) (i : Nat) : ℚ := mean (amountsOnWeekday ts i)

/-- The `overallDayAvg`: the seven weekday averages summed, divided by 7. -/
def overallDayAvgOf (ts : List Transaction) : ℚ :=
  ((List.range 7).map (avgByDayOf ts)).sum / 7

/-- Weekdays whose average exceeds 1.3 × the overall weekday average, in
`DAYS_OF_WEEK` (Sunday-first) order, as produced by `Object.entries`. -/
def highRiskDaysOf (ts : List Transaction) : List String :=
  ((List.range 7).filter (fun i => avgByDayOf ts i > 13/10 * overallDayAvgOf ts)).map
    (fun i => DAYS_OF_WEEK.getD i "")

/-- The fold `weekendDays.flatMap((d) => byDayOfWeek[d])` with
`weekendDays = [Friday, Saturday, Sunday]`. -/
def weekendSpendsOf (ts : List Transaction) : List ℚ :=
  amountsOnWeekday ts 5 ++ amountsOnWeekday ts 6 ++ amountsOnWeekday ts 0

/-- The non-weekend buckets, Monday through Thursday, in week order. -/
def weekdaySpendsOf (ts : List Transaction) : List ℚ :=
  amountsOnWeekday ts 1 ++ amountsOnWeekday ts 2 ++ amountsOnWeekday ts 3 ++ amountsOnWeekday ts 4

def avgWeekendSpendOf (ts : List Transaction) : ℚ := mean (weekendSpendsOf ts)

def avgWeekdaySpendOf (ts : List Transaction) : ℚ := mean (weekdaySpendsOf ts)

/-- Accumulate `v` under key `k` in a JS-object-like association list
(first-occurrence key order, as `Object.entries` would enumerate it). -/
def upsert {α : Type} [DecidableEq α] : List (α × ℚ) → α → ℚ → List (α × ℚ)
  | [], k, v => [(k, v)]
  | (a, b) :: rest, k, v =>
    if a = k then (a, b + v) :: rest else (a, b) :: upsert rest k v

/-- The `dailyTotals` record, keyed by the date part of the timestamp,
i.e. by calendar day. -/
def dailyTotalsOf (ts : List Transaction) : List (CivilDate × ℚ) :=
  ts.foldl (fun acc t => upsert acc t.date t.amount) []

def avgDailySpendOf (ts : List Transaction) : ℚ :=
  mean ((dailyTotalsOf ts).map (fun p => p.2))

/-- Category fallback `t.category || "Uncategorized"` (the empty string is
falsy). -/
def categoryOf (t : Transaction) : String :=
  if t.category = "" then "Uncategorized" else t.category

def byCategoryOf (ts : List Transaction) : List (String × ℚ) :=
  ts.foldl (fun acc t => upsert acc (categoryOf t) t.amount) []

/-- Stable insertion into a descending-sorted list: an element placed later
in the original order goes after every earlier element with the same key. -/
def insertDescBy {α : Type} (key : α → ℚ) (x : α) : List α → List α
  | [] => [x]
  | y :: ys => if key y ≤ key x then x :: y :: ys else y :: insertDescBy key x ys

/-- Stable descending sort, modelling the (stable) JS
`Array.sort((a, b) => b - a)` comparator. -/
def sortDescBy {α : Type} (key : α → ℚ) : List α → List α
  | [] => []
  | x :: xs => insertDescBy key x (sortDescBy key xs)

/-- The `topCategories` computation: sort category totals descending,
take 5; `trend` is
always `stable`. -/
def topCategoriesOf (ts : List Transaction) : List TopCategory :=
  ((sortDescBy (fun p => p.2) (byCategoryOf ts)).take 5).map
    (fun p => { category := p.1, avgMonthly := p.2, trend := "stable" })

def overspendTriggersOf (ts : List Transaction) : List String :=
  (if avgWeekendSpendOf ts > 3/2 * avgWeekdaySpendOf ts then ["weekend_spending"] else []) ++
  (if (highRiskDaysOf ts).contains "Friday" then ["friday_evening"] else [])

/-! `calculateRiskScore`, split into its five additive factors.  The source
applies them as sequential `score += …` updates starting from 50; since all
updates are additions the result is the clamped sum. -/

def riskAdjDaysToPayday (d : ℚ) : Int :=
  if d ≤ 3 then 20 else if d ≤ 7 then 10 else if d > 14 then -10 else 0

def riskAdjSafeSpend (s : ℚ) : Int :=
  if s < 1000 then 25 else if s < 5000 then 10 else if s > 20000 then -15 else 0

def riskAdjHighRiskDay (highRiskDays : List String) (todayName : String) : Int :=
  if highRiskDays.contains todayName then 15 else 0

def riskAdjBalanceUsage (balance spent : ℚ) : Int :=
  if balance > 0 ∧ spent > balance * (4/5) then 20 else 0

def riskAdjStreak (streak : Int) : Int :=
  if streak ≥ 7 then -15 else if streak ≥ 3 then -5 else 0

/-- Model of `calculateRiskScore` of the pattern store.  It reads the transaction
store snapshot, the currently stored pattern (`highRiskDays`,
`currentStreak`) and the ambient date. -/
def calculateRiskScore (store : TransactionStoreState) (pattern : SpendingPattern)
    (today : CivilDate) : Int :=
  max 0 (min 100 (50
    + riskAdjDaysToPayday store.daysToPayday
    + riskAdjSafeSpend store.safeSpendToday
    + riskAdjHighRiskDay pattern.highRiskDays (dayName today)
    + riskAdjBalanceUsage store.currentBalance store.spentThisMonth
    + riskAdjStreak pattern.currentStreak))

/-- Model of `analyzePatterns` as a state update on the stored pattern: with fewer
than 7 transactions it returns early (state unchanged); otherwise it writes
`{ ...get().pattern, …computed fields }`.  `currentStreak` is the only
field not overwritten, and the risk score is computed from the *prior*
pattern (the `set` happens afterwards).  `lastAnalyzedAt` records the
ambient date (`new Date().toISOString()`). -/
def analyzePatterns (store : TransactionStoreState) (today : CivilDate)
    (pattern : SpendingPattern) : SpendingPattern :=
  if store.transactions.length < 7 then pattern
  else
    { pattern with
      avgDailySpend := avgDailySpendOf store.transactions
      avgWeekendSpend := avgWeekendSpendOf store.transactions
      avgWeekdaySpend := avgWeekdaySpendOf store.transactions
      highRiskDays := highRiskDaysOf store.transactions
      highRiskTimes :=
        if avgWeekendSpendOf store.transactions > 3/2 * avgWeekdaySpendOf store.transactions
        then ["evening"] else []
      topCategories := topCategoriesOf store.transactions
      overspendTriggers := overspendTriggersOf store.transactions
      riskScore := calculateRiskScore store pattern today
      lastAnalyzedAt := some today }

/-- Model of `getHighRiskAlert`: first matching rule wins; the result is the
`reason` string of the returned `{ isHighRisk: true, reason }` object
(`none` models the `null` return). -/
def getHighRiskAlert (store : TransactionStoreState) (pattern : SpendingPattern)
    (today : CivilDate) (hour : Int) : Option String :=
  if dayName today = "Friday" ∧ hour ≥ 17 ∧
     pattern.overspendTriggers.contains "weekend_spending" then
    some "weekend_warning"
  else if store.daysToPayday ≤ 5 ∧ store.safeSpendToday < 5000 then
    some "danger_zone"
  else if pattern.highRiskDays.contains (dayName today) ∧ pattern.riskScore > 70 then
    some "high_risk_day"
  else none

/-! ### Check-in service (`CheckInService`), the proactive message selector -/

/-- Model of `generateWeekendWarning`: returns `null` unless the weekend is a
high-risk period; the payload is identified by its `type`. -/
def generateWeekendWarning (pattern : SpendingPattern) : Option String :=
  if ¬ pattern.overspendTriggers.contains "weekend_spending" ∧
     ¬ pattern.highRiskDays.contains "Friday" then none
  else some "weekend_warning"

/-- Model of `generateDangerZoneAlert`: `null` unless genuinely tight. -/
def generateDangerZoneAlert (store : TransactionStoreState) : Option String :=
  if store.daysToPayday > 7 ∨ store.safeSpendToday > 10000 then none
  else some "danger_zone"

/-- Model of `CheckInService.shouldShowProactiveMessage`: on Friday 5–8 PM it
returns whatever `generateWeekendWarning()` returns (even `null`);
otherwise the danger-zone alert if any; otherwise the payday check-in on
payday mornings. -/
def shouldShowProactiveMessage (store : TransactionStoreState) (pattern : SpendingPattern)
    (payday : Option Int) (today : CivilDate) (hour : Int) : Option String :=
  if getDay today = 5 ∧ 17 ≤ hour ∧ hour < 20 then generateWeekendWarning pattern
  else
    match generateDangerZoneAlert store with
    | some m => some m
    | none =>
      if payday = some today.day ∧ 8 ≤ hour ∧ hour < 12 then some "payday_checkin"
      else none

/-- A concrete transaction-store snapshot with seven transactions, all of
amount 100 on Friday 2025-06-20, and financial fields that trigger none of
the risk-score adjustments.  Used for concrete evaluations of the pattern
analyzer. -/
def fridayStore : TransactionStoreState :=
  { transactions :=
      [ { amount := 100, category := "Food", date := ⟨2025, 5, 20⟩ }
      , { amount := 100, category := "Food", date := ⟨2025, 5, 20⟩ }
      , { amount := 100, category := "Food", date := ⟨2025, 5, 20⟩ }
      , { amount := 100, category := "Food", date := ⟨2025, 5, 20⟩ }
      , { amount := 100, category := "Food", date := ⟨2025, 5, 20⟩ }
      , { amount := 100, category := "Food", date := ⟨2025, 5, 20⟩ }
      , { amount := 100, category := "Food", date := ⟨2025, 5, 20⟩ } ]
    safeSpendToday := 10000
    daysToPayday := 10
    currentBalance := 100000
    spentThisMonth := 0 }

end Kora

namespace Kora

/-! ### Calendar lemmas -/

lemma monthLength_ge (y : Int) (m : Nat) : 28 ≤ monthLength y m := by
  unfold monthLength
  split <;> omega

lemma monthLength_le (y : Int) (m : Nat) : monthLength y m ≤ 31 := by
  unfold monthLength
  split <;> omega

lemma monthLength_eleven (y : Int) : monthLength y 11 = 31 := by
  unfold monthLength; norm_num

lemma daysBeforeYear_succ (y : Int) :
    daysBeforeYear (y + 1) = daysBeforeYear y + (if isLeap y then 366 else 365) := by
  have h4 : ∀ a : Int, a.fdiv 4 = a / 4 := fun a => Int.fdiv_eq_ediv a (by norm_num)
  have h100 : ∀ a : Int, a.fdiv 100 = a / 100 := fun a => Int.fdiv_eq_ediv a (by norm_num)
  have h400 : ∀ a : Int, a.fdiv 400 = a / 400 := fun a => Int.fdiv_eq_ediv a (by norm_num)
  simp only [daysBeforeYear, isLeap, h4, h100, h400, Bool.or_eq_true, Bool.and_eq_true,
    beq_iff_eq, bne_iff_ne, ne_eq]
  split <;> omega

lemma daysBeforeMonth_eleven (y : Int) :
    daysBeforeMonth y 11 = 334 + (if isLeap y then 1 else 0) := by
  show daysBeforeMonth y (10 + 1) = _
  simp only [daysBeforeMonth, monthLength]
  norm_num
  split <;> omega

lemma nextMonthMonth_lt {m : Nat} (hm : m < 12) : nextMonthMonth m < 12 := by
  unfold nextMonthMonth; split <;> omega

lemma nextMonthMonth_eq_mod {m : Nat} (hm : m < 12) : nextMonthMonth m = (m + 1) % 12 := by
  unfold nextMonthMonth; split <;> omega

lemma nextMonthMonth_ne (m : Nat) :
    nextMonthMonth (nextMonthMonth m) ≠ nextMonthMonth m := by
  unfold nextMonthMonth; split <;> split <;> omega

lemma dayNumber_mk (y : Int) (m : Nat) (hm : m < 12) (d : Int) :
    dayNumber ⟨y, m, d⟩ = daysBeforeYear y + daysBeforeMonth y m + d := by
  have h1 : ((m : Int)).fdiv 12 = 0 := by
    rw [Int.fdiv_eq_ediv _ (by norm_num)]; omega
  have h2 : (((m : Int)) % 12).toNat = m := by omega
  simp [dayNumber, jsDayNumber, h1, h2]

lemma jsDayNumber_sub_const (y mm a b : Int) :
    jsDayNumber y mm a - jsDayNumber y mm b = a - b := by
  unfold jsDayNumber; ring

lemma addDays_within (y : Int) (mo : Nat) :
    ∀ (k : Nat) (dd : Int), 1 ≤ dd → dd + k ≤ monthLength y mo →
      addDays ⟨y, mo, dd⟩ k = ⟨y, mo, dd + k⟩ := by
  intro k
  induction k with
  | zero => intro dd h1 h2; simp [addDays]
  | succ n ih =>
    intro dd h1 h2
    have hlt : dd < monthLength y mo := by
      have : ((n : Int) + 1) ≤ monthLength y mo - dd := by push_cast at h2; omega
      omega
    show addDays (nextDay ⟨y, mo, dd⟩) n = _
    have hnext : nextDay ⟨y, mo, dd⟩ = ⟨y, mo, dd + 1⟩ := by
      unfold nextDay; simp [hlt]
    rw [hnext, ih (dd + 1) (by omega) (by push_cast at h2 ⊢; omega)]
    have : dd + 1 + (n : Int) = dd + ((n : Nat) + 1 : Nat) := by push_cast; ring
    rw [this]

lemma addDays_add (a b : Nat) : ∀ c : CivilDate, addDays c (a + b) = addDays (addDays c a) b := by
  induction a with
  | zero => intro c; simp [addDays]
  | succ n ih =>
    intro c
    rw [Nat.succ_add]
    show addDays (nextDay c) (n + b) = addDays (addDays (nextDay c) n) b
    exact ih (nextDay c)

lemma nextDay_monthLength (Y : Int) (M : Nat) :
    nextDay ⟨Y, M, monthLength Y M⟩ = ⟨nextMonthYear Y M, nextMonthMonth M, 1⟩ := by
  unfold nextDay nextMonthYear nextMonthMonth
  by_cases h : M = 11 <;> simp [h]

lemma prevDay_firstOfNext (Y : Int) (M : Nat) :
    prevDay ⟨nextMonthYear Y M, nextMonthMonth M, 1⟩ = ⟨Y, M, monthLength Y M⟩ := by
  unfold prevDay nextMonthYear nextMonthMonth
  by_cases h : M = 11 <;> simp [h]

/-- Where `addDays` starting from the first of month `(Y, M)` lands, for an
offset built from a day value `p ≤ 31`: either inside the month, or (by at
most three days, since every month has at least 28 days) in the next one. -/
lemma addDays_first (Y : Int) (M : Nat) (p : Int) (hp1 : 1 ≤ p) (hp2 : p ≤ 31) :
    addDays ⟨Y, M, 1⟩ (p - 1).toNat =
      if p ≤ monthLength Y M then ⟨Y, M, p⟩
      else ⟨nextMonthYear Y M, nextMonthMonth M, p - monthLength Y M⟩ := by
  have hge : 28 ≤ monthLength Y M := monthLength_ge Y M
  by_cases hL : p ≤ monthLength Y M
  · rw [if_pos hL]
    rw [addDays_within Y M (p - 1).toNat 1 (by omega) (by omega)]
    congr 1
    omega
  · rw [if_neg hL]
    have hsplit : (p - 1).toNat = (monthLength Y M - 1).toNat + (p - monthLength Y M).toNat := by
      omega
    rw [hsplit, addDays_add]
    rw [addDays_within Y M (monthLength Y M - 1).toNat 1 (by omega) (by omega)]
    have h1L : (1 : Int) + ((monthLength Y M - 1).toNat : Int) = monthLength Y M := by omega
    rw [h1L]
    have he : (p - monthLength Y M).toNat = ((p - monthLength Y M).toNat - 1) + 1 := by omega
    rw [he, Nat.add_comm, addDays_add]
    show addDays (addDays (nextDay ⟨Y, M, monthLength Y M⟩) 0) _ = _
    rw [nextDay_monthLength]
    show addDays ⟨nextMonthYear Y M, nextMonthMonth M, 1⟩ _ = _
    rw [addDays_within (nextMonthYear Y M) (nextMonthMonth M) _ 1 (by omega)
      (by have := monthLength_ge (nextMonthYear Y M) (nextMonthMonth M); omega)]
    congr 1
    omega

/-- Characterisation of `new Date(y, m + 1, p)` for a real month `m` and a
day-of-month value `p ∈ [1, 31]`. -/
lemma jsMkDate_next (y : Int) (m : Nat) (hm : m < 12) (p : Int) (hp1 : 1 ≤ p) (hp2 : p ≤ 31) :
    jsMkDate y ((m : Int) + 1) p =
      if p ≤ monthLength (nextMonthYear y m) (nextMonthMonth m)
      then ⟨nextMonthYear y m, nextMonthMonth m, p⟩
      else ⟨nextMonthYear (nextMonthYear y m) (nextMonthMonth m),
            nextMonthMonth (nextMonthMonth m),
            p - monthLength (nextMonthYear y m) (nextMonthMonth m)⟩ := by
  have hfd : y + ((m : Int) + 1).fdiv 12 = nextMonthYear y m := by
    have : ((m : Int) + 1).fdiv 12 = ((m : Int) + 1) / 12 := Int.fdiv_eq_ediv _ (by norm_num)
    unfold nextMonthYear
    split <;> omega
  have hem : ((((m : Int) + 1)) % 12).toNat = nextMonthMonth m := by
    unfold nextMonthMonth
    split <;> omega
  unfold jsMkDate
  rw [if_pos hp1]
  simp only [hfd, hem]
  exact addDays_first (nextMonthYear y m) (nextMonthMonth m) p hp1 hp2

/-- A zero day value, `new Date(y, m, 0)`, is the last day of the month
before `(y, m)`. -/
lemma jsMkDate_zero (Y : Int) (M : Nat) (hM : M < 12) :
    jsMkDate Y (M : Int) 0 = prevDay ⟨Y, M, 1⟩ := by
  have h1 : ((M : Int)).fdiv 12 = 0 := by
    rw [Int.fdiv_eq_ediv _ (by norm_num)]; omega
  have h2 : (((M : Int)) % 12).toNat = M := by omega
  unfold jsMkDate
  rw [if_neg (by norm_num)]
  simp [h1, h2, subDays]

/-- The backend `calculateDaysToPayday`, once the current day-of-month has
reached `paydayDay`, returns the day-number distance to `paydayDay` of the
next calendar month, clamped to the last day of that month. -/
lemma serviceDays_spec (y : Int) (m : Nat) (hm : m < 12) (d p : Int)
    (hp1 : 1 ≤ p) (hp2 : p ≤ 31) (h : p ≤ d) :
    FinanceService.calculateDaysToPayday ⟨y, m, d⟩ p =
      dayNumber ⟨nextMonthYear y m, nextMonthMonth m,
        min p (monthLength (nextMonthYear y m) (nextMonthMonth m))⟩ - dayNumber ⟨y, m, d⟩ := by
  unfold FinanceService.calculateDaysToPayday
  rw [if_neg (by simp only; omega)]
  simp only
  rw [jsMkDate_next y m hm p hp1 hp2]
  by_cases hL : p ≤ monthLength (nextMonthYear y m) (nextMonthMonth m)
  · rw [if_pos hL]
    rw [if_neg]
    · rw [min_eq_left hL]
    · simp only [ne_eq, Decidable.not_not]
      exact nextMonthMonth_eq_mod hm
  · rw [if_neg hL]
    rw [if_pos (by rw [← nextMonthMonth_eq_mod hm]; exact nextMonthMonth_ne m)]
    rw [jsMkDate_zero _ _ (nextMonthMonth_lt (nextMonthMonth_lt hm))]
    rw [prevDay_firstOfNext]
    rw [min_eq_right (by omega)]

/-- On valid dates, the backend distance-to-payday from the wrap branch is
strictly positive. -/
lemma serviceDays_pos_of_ge (y : Int) (m : Nat) (hm : m < 12) (d p : Int)
    (hd2 : d ≤ monthLength y m) (hp1 : 1 ≤ p) (hp2 : p ≤ 31) (h : p ≤ d) :
    0 < FinanceService.calculateDaysToPayday ⟨y, m, d⟩ p := by
  rw [serviceDays_spec y m hm d p hp1 hp2 h]
  by_cases h11 : m = 11
  · subst h11
    have e1 : nextMonthYear y 11 = y + 1 := by simp [nextMonthYear]
    have e2 : nextMonthMonth 11 = 0 := by simp [nextMonthMonth]
    rw [e1, e2, dayNumber_mk _ _ (by norm_num) _, dayNumber_mk _ _ (by norm_num) _,
      daysBeforeYear_succ, daysBeforeMonth_eleven]
    have hL : monthLength (y + 1) 0 = 31 := by simp [monthLength]
    rw [monthLength_eleven] at hd2
    rw [hL]
    simp only [daysBeforeMonth]
    split <;> omega
  · have e1 : nextMonthYear y m = y := by unfold nextMonthYear; rw [if_neg h11]
    have e2 : nextMonthMonth m = m + 1 := by unfold nextMonthMonth; rw [if_neg h11]
    rw [e1, e2, dayNumber_mk _ _ (by omega) _, dayNumber_mk _ _ hm _]
    have hstep : daysBeforeMonth y (m + 1) = daysBeforeMonth y m + monthLength y m := rfl
    rw [hstep]
    have hge : 28 ≤ monthLength y (m + 1) := monthLength_ge y (m + 1)
    omega

/-! ### Shared helper lemmas for the finance claims -/

lemma upcomingBills_eq (es : List FixedExpense) (today : CivilDate) (p : Int) :
    FinanceService.calculateUpcomingBills es today p =
      FinanceEngine.calculateUpcomingBills es today p := rfl

lemma fdiv_nonpos_of_nonpos {a b : Int} (ha : a ≤ 0) (hb : 0 < b) : a.fdiv b ≤ 0 := by
  rw [Int.fdiv_eq_ediv _ (le_of_lt hb)]
  calc a / b ≤ 0 / b := Int.ediv_le_ediv hb ha
  _ = 0 := Int.zero_ediv b

/-- In the branch where payday is still ahead this month, the mobile
days-to-payday is the plain day difference. -/
lemma mobileDays_of_le (y : Int) (m : Nat) (d p : Int) (h : d ≤ p) :
    FinanceEngine.calculateDaysToPayday ⟨y, m, d⟩ p = p - d := by
  simp only [FinanceEngine.calculateDaysToPayday]
  rw [if_neg (by show ¬(d > p); omega)]
  have hsub : jsDayNumber y (m : Int) p - dayNumber ⟨y, m, d⟩ = p - d :=
    jsDayNumber_sub_const y (m : Int) p d
  omega

lemma serviceDays_of_lt (y : Int) (m : Nat) (d p : Int) (h : d < p) :
    FinanceService.calculateDaysToPayday ⟨y, m, d⟩ p = p - d := by
  simp only [FinanceService.calculateDaysToPayday]
  rw [if_pos (by show d < p; omega)]

end Kora

namespace Kora

/-! ### Claim C1: cross-implementation agreement of Safe Spend -/

/-- C1 (counterexample): the three Safe-Spend implementations do not return
bit-identical results on a common input.  With balance 100, a single fixed
expense of 50 due on the 15th, today 2025-06-10 and payday day 20, the
mobile engine and the backend service both return 5 while the backend AI
route (which ignores upcoming bills) returns 10. -/
theorem C1_safe_spend_counterexample :
    FinanceEngine.safeSpendState ⟨2025, 5, 10⟩ 100 [⟨some 15, 50⟩] 20 = 5 ∧
    FinanceService.safeSpendOfFinanceState ⟨2025, 5, 10⟩ 100 [⟨some 15, 50⟩] 20 = 5 ∧
    AiRoute.safeSpendOfFinanceState ⟨2025, 5, 10⟩ 100 20 = 10 ∧
    (10 : Int) ≠ 5 := by decide

/-- C1 (amended): the mobile `FinanceEngine` pipeline and the backend
`FinanceService.calculateFinanceState` return identical Safe Spend whenever
payday is still at least two days ahead in the current month; the AI-route
implementation omits the upcoming-bills subtraction and is not always
equal to the other two — it differs at the counterexample input. -/
theorem C1_mobile_service_agree (balance : Int) (expenses : List FixedExpense)
    (today : CivilDate) (paydayDay : Int) (h : today.day + 2 ≤ paydayDay) :
    FinanceEngine.safeSpendState today balance expenses paydayDay =
      FinanceService.safeSpendOfFinanceState today balance expenses paydayDay := by
  rcases today with ⟨y, m, d⟩
  have hd : d + 2 ≤ paydayDay := h
  have hdm : FinanceEngine.calculateDaysToPayday ⟨y, m, d⟩ paydayDay = paydayDay - d :=
    mobileDays_of_le y m d paydayDay (by omega)
  have hds : FinanceService.calculateDaysToPayday ⟨y, m, d⟩ paydayDay = paydayDay - d :=
    serviceDays_of_lt y m d paydayDay (by omega)
  simp only [FinanceEngine.safeSpendState, FinanceEngine.calculateSafeSpend,
    FinanceService.safeSpendOfFinanceState, hdm, hds, upcomingBills_eq]
  rw [if_neg (by omega)]
  rw [if_neg (show ¬(paydayDay - d < 1) by omega)]
  set eff := balance - FinanceEngine.calculateUpcomingBills expenses ⟨y, m, d⟩ paydayDay with heff
  by_cases hpos : eff ≤ 0
  · rw [if_pos hpos]
    have hle : eff.fdiv (paydayDay - d) ≤ 0 := fdiv_nonpos_of_nonpos hpos (by omega)
    split <;> omega
  · rw [if_neg hpos]
    have hge : 0 ≤ eff.fdiv (paydayDay - d) := Int.fdiv_nonneg (by omega) (by omega)
    rw [if_neg (by omega)]

/-- C1 (witness): the agreement theorem applied at a concrete input. -/
theorem C1_mobile_service_agree_witness :
    FinanceEngine.safeSpendState ⟨2025, 5, 10⟩ 1000 [⟨some 15, 50⟩] 20 =
      FinanceService.safeSpendOfFinanceState ⟨2025, 5, 10⟩ 1000 [⟨some 15, 50⟩] 20 ∧
    FinanceEngine.safeSpendState ⟨2025, 5, 10⟩ 1000 [⟨some 15, 50⟩] 20 = 95 :=
  ⟨C1_mobile_service_agree 1000 [⟨some 15, 50⟩] ⟨2025, 5, 10⟩ 20 (by decide), by decide⟩

/-! ### Claim C2: month-length clamping of the next-month payday target -/

/-- C2 (counterexample): the claim asserts that for `today = 2025-01-31`
and `paydayDay = 31` the distance is 28 days; the mobile
`FinanceEngine.calculateDaysToPayday` (one of the two cited
implementations) returns 0 on that input, because its next-month branch is
taken only when the day-of-month strictly exceeds the payday day. -/
theorem C2_clamp_counterexample :
    FinanceEngine.calculateDaysToPayday ⟨2025, 0, 31⟩ 31 = 0 ∧ (0 : Int) ≠ 28 := by decide

/-- C2 (amended): the backend `FinanceService.calculateDaysToPayday` does
behave as claimed: for every valid date whose day-of-month has reached
`paydayDay`, it targets `paydayDay` of the next calendar month clamped to
the last day of that month, and concretely maps 2025-01-31 with payday 31 to
2025-02-28, 28 days away.  The mobile engine instead returns 0 when the
day-of-month equals `paydayDay` and does not clamp. -/
theorem C2_backend_clamps (today : CivilDate) (paydayDay : Int)
    (hm : today.month < 12) (hp1 : 1 ≤ paydayDay) (hp2 : paydayDay ≤ 31)
    (h : paydayDay ≤ today.day) :
    FinanceService.calculateDaysToPayday today paydayDay =
      dayNumber ⟨nextMonthYear today.year today.month, nextMonthMonth today.month,
        min paydayDay
          (monthLength (nextMonthYear today.year today.month) (nextMonthMonth today.month))⟩
        - dayNumber today := by
  rcases today with ⟨y, m, d⟩
  exact serviceDays_spec y m hm d paydayDay hp1 hp2 h

/-- C2 (witness): the clamping characterisation at 2025-01-31 with payday
31: the clamped target is 2025-02-28 and the distance is 28 days. -/
theorem C2_backend_clamps_witness :
    FinanceService.calculateDaysToPayday ⟨2025, 0, 31⟩ 31 =
      dayNumber ⟨nextMonthYear 2025 0, nextMonthMonth 0,
        min 31 (monthLength (nextMonthYear 2025 0) (nextMonthMonth 0))⟩
        - dayNumber ⟨2025, 0, 31⟩ ∧
    FinanceService.calculateDaysToPayday ⟨2025, 0, 31⟩ 31 = 28 ∧
    (⟨nextMonthYear 2025 0, nextMonthMonth 0,
        min 31 (monthLength (nextMonthYear 2025 0) (nextMonthMonth 0))⟩ : CivilDate) =
      ⟨2025, 1, 28⟩ :=
  ⟨C2_backend_clamps ⟨2025, 0, 31⟩ 31 (by decide) (by decide) (by decide) (by decide),
    by decide, by decide⟩

/-! ### Claim C3: zero on payday, never negative -/

/-- C3 (counterexample): the claim requires `daysToPayday = 0` whenever the
day-of-month equals the payday day, for both cited implementations; the
backend `FinanceService.calculateDaysToPayday` instead jumps to next
month: on 2025-06-15 with payday day 15 it returns 30, not 0. -/
theorem C3_payday_zero_counterexample :
    FinanceService.calculateDaysToPayday ⟨2025, 5, 15⟩ 15 = 30 ∧ (30 : Int) ≠ 0 := by decide

/-- C3 (amended): on the payday day itself the mobile engine returns 0 and
the backend returns the strictly positive distance to the next-month payday;
neither implementation ever returns a negative value (the backend part on
valid dates and payday days). -/
theorem C3_zero_and_nonneg :
    (∀ (today : CivilDate) (p : Int), today.day = p →
        FinanceEngine.calculateDaysToPayday today p = 0) ∧
    (∀ (today : CivilDate) (p : Int), 0 ≤ FinanceEngine.calculateDaysToPayday today p) ∧
    (∀ (today : CivilDate) (p : Int), today.Valid → 1 ≤ p → p ≤ 31 →
        0 ≤ FinanceService.calculateDaysToPayday today p) ∧
    (∀ (today : CivilDate) (p : Int), today.Valid → 1 ≤ p → p ≤ 31 → today.day = p →
        0 < FinanceService.calculateDaysToPayday today p) := by
  refine ⟨?_, ?_, ?_, ?_⟩
  · rintro ⟨y, m, d⟩ p hdp
    have hd : d = p := hdp
    subst hd
    rw [mobileDays_of_le y m d d le_rfl]
    omega
  · intro today p
    exact le_max_left 0 _
  · rintro ⟨y, m, d⟩ p hv hp1 hp2
    obtain ⟨hm, hd1, hd2⟩ := hv
    by_cases hlt : d < p
    · rw [serviceDays_of_lt y m d p hlt]; omega
    · have := serviceDays_pos_of_ge y m hm d p hd2 hp1 hp2 (by omega)
      omega
  · rintro ⟨y, m, d⟩ p hv hp1 hp2 hdp
    obtain ⟨hm, hd1, hd2⟩ := hv
    have hd : d = p := hdp
    exact serviceDays_pos_of_ge y m hm d p hd2 hp1 hp2 (by omega)

/-- C3 (witness): the four parts at concrete inputs: the mobile engine on
its payday (2025-06-21, payday 21) returns 0 and is non-negative; the
backend on valid 2025-06-15 with payday 15 is non-negative and strictly
positive. -/
theorem C3_zero_and_nonneg_witness :
    FinanceEngine.calculateDaysToPayday ⟨2025, 5, 21⟩ 21 = 0 ∧
    0 ≤ FinanceEngine.calculateDaysToPayday ⟨2025, 5, 21⟩ 21 ∧
    0 ≤ FinanceService.calculateDaysToPayday ⟨2025, 5, 15⟩ 15 ∧
    0 < FinanceService.calculateDaysToPayday ⟨2025, 5, 15⟩ 15 :=
  ⟨C3_zero_and_nonneg.1 ⟨2025, 5, 21⟩ 21 (by decide),
    C3_zero_and_nonneg.2.1 ⟨2025, 5, 21⟩ 21,
    C3_zero_and_nonneg.2.2.1 ⟨2025, 5, 15⟩ 15 (by decide) (by decide) (by decide),
    C3_zero_and_nonneg.2.2.2 ⟨2025, 5, 15⟩ 15 (by decide) (by decide) (by decide) (by decide)⟩

/-! ### Claim C4: the `days ≤ 1` short-circuit -/

/-- C4 (counterexample): with one day to payday the backend service does
not return the balance as-is: on 2025-06-30 with payday day 1, balance 100
and an expense of 50 due on the 31st, `daysToPayday = 1` yet the service
returns 50 (bills subtracted), not the balance 100. -/
theorem C4_short_circuit_counterexample :
    FinanceService.calculateDaysToPayday ⟨2025, 5, 30⟩ 1 = 1 ∧
    FinanceService.safeSpendOfFinanceState ⟨2025, 5, 30⟩ 100 [⟨some 31, 50⟩] 1 = 50 ∧
    (50 : Int) ≠ 100 := by decide

/-- C4 (amended): the mobile `calculateSafeSpend` does return the balance
as-is whenever `daysToPayday ≤ 1` (no bill subtraction, no clamping, no
division); the backend service instead always subtracts upcoming bills,
divides by `max 1 daysToPayday` and clamps at zero, so with
`daysToPayday ≤ 1` it returns `max 0 (balance − upcomingBills)`. -/
theorem C4_short_circuit :
    (∀ (today : CivilDate) (balance : Int) (es : List FixedExpense) (days p : Int),
        days ≤ 1 → FinanceEngine.calculateSafeSpend today balance es days p = balance) ∧
    (∀ (today : CivilDate) (balance : Int) (es : List FixedExpense) (p : Int),
        FinanceService.calculateDaysToPayday today p ≤ 1 →
        FinanceService.safeSpendOfFinanceState today balance es p =
          max 0 (balance - FinanceService.calculateUpcomingBills es today p)) := by
  constructor
  · intro today balance es days p hdays
    simp only [FinanceEngine.calculateSafeSpend]
    rw [if_pos hdays]
  · intro today balance es p hdays
    simp only [FinanceService.safeSpendOfFinanceState]
    have hdiv : (if FinanceService.calculateDaysToPayday today p < 1 then 1
        else FinanceService.calculateDaysToPayday today p) = 1 := by
      split <;> omega
    rw [hdiv, Int.fdiv_one]
    split <;> omega

/-- C4 (witness): the two parts at concrete inputs (mobile with one day to
payday keeps the full balance; the service subtracts the bill due
tomorrow). -/
theorem C4_short_circuit_witness :
    FinanceEngine.calculateSafeSpend ⟨2025, 5, 20⟩ 5000 [⟨some 1, 1400⟩] 1 21 = 5000 ∧
    FinanceService.safeSpendOfFinanceState ⟨2025, 5, 30⟩ 100 [⟨some 31, 50⟩] 1 =
      max 0 (100 - FinanceService.calculateUpcomingBills [⟨some 31, 50⟩] ⟨2025, 5, 30⟩ 1) :=
  ⟨C4_short_circuit.1 ⟨2025, 5, 20⟩ 5000 [⟨some 1, 1400⟩] 1 21 (by decide),
    C4_short_circuit.2 ⟨2025, 5, 30⟩ 100 [⟨some 31, 50⟩] 1 (by decide)⟩

/-! ### Claim C5: upcoming-bills boundary and null exclusion -/

/-- Auxiliary fold lemma: expenses whose due day is missing, equal to the
current day, or equal to the payday day never change the accumulator of the
upcoming-bills fold, so filtering them out leaves the total unchanged. -/
lemma billsFold_filter (today : CivilDate) (p : Int) :
    ∀ (es : List FixedExpense) (acc : Int),
      es.foldl (fun acc e =>
        match e.dueDay with
        | none => acc
        | some dd =>
          if dd = 0 then acc
          else if today.day < p then
            if dd > today.day ∧ dd < p then acc + e.amount else acc
          else if dd > today.day then acc + e.amount
          else if dd < p then acc + e.amount
          else acc) acc =
      (es.filter fun e =>
        match e.dueDay with
        | none => false
        | some dd => dd != today.day && dd != p).foldl (fun acc e =>
        match e.dueDay with
        | none => acc
        | some dd =>
          if dd = 0 then acc
          else if today.day < p then
            if dd > today.day ∧ dd < p then acc + e.amount else acc
          else if dd > today.day then acc + e.amount
          else if dd < p then acc + e.amount
          else acc) acc := by
  intro es
  induction es with
  | nil => intro acc; rfl
  | cons e rest ih =>
    intro acc
    rcases e with ⟨dd, amt⟩
    rcases dd with _ | dd
    · simpa only [List.filter_cons, List.foldl_cons, Bool.false_eq_true, if_false] using ih acc
    · by_cases hP : (dd != today.day && dd != p) = true
      · simp only [List.filter_cons, List.foldl_cons, hP, eq_self_iff_true, if_true]
        exact ih _
      · have hP2 : (dd != today.day && dd != p) = false := by
          cases hb : (dd != today.day && dd != p)
          · rfl
          · exact absurd hb hP
        have hor : dd = today.day ∨ dd = p := by
          simp only [Bool.and_eq_true, bne_iff_ne, ne_eq, not_and_or, not_not] at hP
          exact hP
        have hstep :
            (if dd = 0 then acc
             else if today.day < p then
               if dd > today.day ∧ dd < p then acc + amt else acc
             else if dd > today.day then acc + amt
             else if dd < p then acc + amt
             else acc) = acc := by
          split_ifs <;> omega
        simp only [List.filter_cons, List.foldl_cons, hP2, Bool.false_eq_true, if_false]
        rw [hstep]
        exact ih acc

/-- C5 (confirmed): in both the mobile and the backend implementation of
`calculateUpcomingBills`, removing every expense whose due day is `null`,
equal to the current day-of-month, or equal to the payday day leaves the
upcoming-bills total unchanged — i.e. such expenses are never counted, in
the same-month window and in the wrap-around window alike. -/
theorem C5_boundary_and_null_exclusion (es : List FixedExpense) (today : CivilDate) (p : Int) :
    FinanceEngine.calculateUpcomingBills es today p =
      FinanceEngine.calculateUpcomingBills
        (es.filter fun e =>
          match e.dueDay with
          | none => false
          | some dd => dd != today.day && dd != p) today p ∧
    FinanceService.calculateUpcomingBills es today p =
      FinanceService.calculateUpcomingBills
        (es.filter fun e =>
          match e.dueDay with
          | none => false
          | some dd => dd != today.day && dd != p) today p := by
  constructor
  · exact billsFold_filter today p es 0
  · exact billsFold_filter today p es 0

/-! ### Claim C6: no `InvalidArgument` failure for out-of-range payday -/

/-- C6 (counterexample): a `paydayDay` outside 1–31 is not rejected; both
implementations silently compute a number: the mobile engine maps
(2025-06-15, payday 0) to 15 (June 30 is `new Date(y, m+1, 0)`), and the
backend maps (2025-06-15, payday 32) to 17 = 32 − 15, a distance to a
nonexistent day-of-month 32 "later this month". -/
theorem C6_no_failure_counterexample :
    FinanceEngine.calculateDaysToPayday ⟨2025, 5, 15⟩ 0 = 15 ∧
    FinanceService.calculateDaysToPayday ⟨2025, 5, 15⟩ 32 = 17 := by decide

/-- C6 (amended): no implementation validates `paydayDay`: the mobile
`calculateDaysToPayday` is total and returns a non-negative number for
every integer `paydayDay` whatsoever (including values outside 1–31), and
the backend callers silently coerce a missing or zero payday to 1 via
`profile.payday || 1` instead of failing. -/
theorem C6_no_validation :
    (∀ (today : CivilDate) (paydayDay : Int),
        0 ≤ FinanceEngine.calculateDaysToPayday today paydayDay) ∧
    resolvePayday none = 1 ∧ resolvePayday (some 0) = 1 :=
  ⟨fun _ _ => le_max_left 0 _, rfl, rfl⟩

/-! ### Claim C7: the insufficient-data guard of `analyzePatterns` -/

/-- C7 (confirmed): with fewer than 7 transactions `analyzePatterns` leaves
the stored pattern completely unchanged (and cannot fail — it is total);
with 7 or more it performs the analysis and updates the pattern: the
analysis fields are recomputed from the transaction list and
`lastAnalyzedAt` is stamped with the current date. -/
theorem C7_insufficient_data_guard :
    (∀ (store : TransactionStoreState) (today : CivilDate) (pattern : SpendingPattern),
        store.transactions.length < 7 → analyzePatterns store today pattern = pattern) ∧
    (∀ (store : TransactionStoreState) (today : CivilDate) (pattern : SpendingPattern),
        7 ≤ store.transactions.length →
          (analyzePatterns store today pattern).lastAnalyzedAt = some today ∧
          (analyzePatterns store today pattern).avgDailySpend =
            avgDailySpendOf store.transactions ∧
          (analyzePatterns store today pattern).highRiskDays =
            highRiskDaysOf store.transactions ∧
          (analyzePatterns store today pattern).topCategories =
            topCategoriesOf store.transactions ∧
          (analyzePatterns store today pattern).riskScore =
            calculateRiskScore store pattern today) := by
  constructor
  · intro s t pat h
    simp only [analyzePatterns, if_pos h]
  · intro s t pat h
    simp only [analyzePatterns, if_neg (show ¬ s.transactions.length < 7 from by omega)]
    refine ⟨?_, ?_, ?_, ?_, ?_⟩ <;> trivial

/-- C7 (witness): the guard at concrete inputs: the empty list and a
six-transaction list leave the default pattern untouched, while the
seven-transaction `fridayStore` stamps `lastAnalyzedAt`. -/
theorem C7_insufficient_data_guard_witness :
    analyzePatterns { fridayStore with transactions := [] } ⟨2025, 5, 20⟩ DEFAULT_PATTERN =
      DEFAULT_PATTERN ∧
    analyzePatterns { fridayStore with transactions := fridayStore.transactions.take 6 }
      ⟨2025, 5, 20⟩ DEFAULT_PATTERN = DEFAULT_PATTERN ∧
    (analyzePatterns fridayStore ⟨2025, 5, 20⟩ DEFAULT_PATTERN).lastAnalyzedAt =
      some ⟨2025, 5, 20⟩ :=
  ⟨C7_insufficient_data_guard.1 _ _ _ (by decide),
    C7_insufficient_data_guard.1 _ _ _ (by decide),
    (C7_insufficient_data_guard.2 fridayStore ⟨2025, 5, 20⟩ DEFAULT_PATTERN (by decide)).1⟩

/-! ### Claim C8: risk-score structure and bounds -/

/-- C8 (confirmed): `calculateRiskScore` is the clamp to `[0, 100]` of the
base 50 plus exactly the five specified additive adjustments (days to
payday, safe-spend magnitude, high-risk day, month-to-date spend versus
balance, streak), and its result always lies between 0 and 100. -/
theorem C8_risk_score_bounds (store : TransactionStoreState) (pattern : SpendingPattern)
    (today : CivilDate) :
    calculateRiskScore store pattern today =
      max 0 (min 100 (50
        + (if store.daysToPayday ≤ 3 then 20 else if store.daysToPayday ≤ 7 then 10
           else if store.daysToPayday > 14 then -10 else 0)
        + (if store.safeSpendToday < 1000 then 25 else if store.safeSpendToday < 5000 then 10
           else if store.safeSpendToday > 20000 then -15 else 0)
        + (if pattern.highRiskDays.contains (dayName today) then 15 else 0)
        + (if store.currentBalance > 0 ∧
              store.spentThisMonth > store.currentBalance * (4/5) then 20 else 0)
        + (if pattern.currentStreak ≥ 7 then -15 else if pattern.currentStreak ≥ 3 then -5
           else 0))) ∧
    0 ≤ calculateRiskScore store pattern today ∧
    calculateRiskScore store pattern today ≤ 100 := by
  refine ⟨rfl, ?_, ?_⟩ <;>
    · unfold calculateRiskScore
      omega

/-! ### Claim C9: determinism and idempotence of pattern analysis -/

/-- With at least 7 transactions, the analysis result depends on the prior
pattern only through `currentStreak` (carried over) and `highRiskDays`
(read by the risk score). -/
lemma analyzePatterns_congr (s : TransactionStoreState) (t : CivilDate)
    {p q : SpendingPattern} (hlen : 7 ≤ s.transactions.length)
    (hcs : p.currentStreak = q.currentStreak) (hhr : p.highRiskDays = q.highRiskDays) :
    analyzePatterns s t p = analyzePatterns s t q := by
  have hrisk : calculateRiskScore s p t = calculateRiskScore s q t := by
    unfold calculateRiskScore riskAdjHighRiskDay riskAdjStreak
    rw [hcs, hhr]
  simp only [analyzePatterns, if_neg (show ¬ s.transactions.length < 7 from by omega)]
  rw [hrisk, hcs]

lemma analyzePatterns_currentStreak (s : TransactionStoreState) (t : CivilDate)
    (q : SpendingPattern) :
    (analyzePatterns s t q).currentStreak = q.currentStreak := by
  simp only [analyzePatterns]
  split <;> rfl

lemma analyzePatterns_highRiskDays (s : TransactionStoreState) (t : CivilDate)
    (q : SpendingPattern) (hlen : ¬ s.transactions.length < 7) :
    (analyzePatterns s t q).highRiskDays = highRiskDaysOf s.transactions := by
  simp only [analyzePatterns, if_neg hlen]

/-- C9 (amended): pattern analysis is a deterministic pure function of the
transaction-store snapshot, the prior stored pattern and the ambient date —
but not of the transaction list alone, and a second invocation on the
state written by the first is not guaranteed to be a no-op (the risk score
reads the stored pattern).  What does hold is stabilisation: from the
second invocation onward the stored pattern no longer changes. -/
theorem C9_analysis_stabilizes (s : TransactionStoreState) (t : CivilDate)
    (p : SpendingPattern) :
    analyzePatterns s t (analyzePatterns s t (analyzePatterns s t p)) =
      analyzePatterns s t (analyzePatterns s t p) := by
  by_cases h : s.transactions.length < 7
  · simp only [analyzePatterns, if_pos h]
  · exact analyzePatterns_congr s t (by omega)
      (analyzePatterns_currentStreak s t (analyzePatterns s t p))
      (by rw [analyzePatterns_highRiskDays s t (analyzePatterns s t p) h,
        analyzePatterns_highRiskDays s t p h])

/-! Concrete evaluation of the pattern analysis on `fridayStore`. -/

lemma fridayStore_amounts_five :
    amountsOnWeekday fridayStore.transactions 5 =
      [100, 100, 100, 100, 100, 100, 100] := by decide

lemma fridayStore_amounts_other (i : Nat) (h1 : i < 7) (h2 : i ≠ 5) :
    amountsOnWeekday fridayStore.transactions i = [] := by
  interval_cases i
  · decide
  · decide
  · decide
  · decide
  · decide
  · exact absurd rfl h2
  · decide

lemma fridayStore_avg_five : avgByDayOf fridayStore.transactions 5 = 100 := by
  unfold avgByDayOf
  rw [fridayStore_amounts_five]
  norm_num [mean]

lemma fridayStore_avg_other (i : Nat) (h1 : i < 7) (h2 : i ≠ 5) :
    avgByDayOf fridayStore.transactions i = 0 := by
  unfold avgByDayOf
  rw [fridayStore_amounts_other i h1 h2]
  norm_num [mean]

lemma fridayStore_overall : overallDayAvgOf fridayStore.transactions = 100 / 7 := by
  unfold overallDayAvgOf
  rw [show List.range 7 = [0, 1, 2, 3, 4, 5, 6] from rfl]
  simp only [List.map_cons, List.map_nil, List.sum_cons, List.sum_nil]
  rw [fridayStore_avg_five,
    fridayStore_avg_other 0 (by norm_num) (by norm_num),
    fridayStore_avg_other 1 (by norm_num) (by norm_num),
    fridayStore_avg_other 2 (by norm_num) (by norm_num),
    fridayStore_avg_other 3 (by norm_num) (by norm_num),
    fridayStore_avg_other 4 (by norm_num) (by norm_num),
    fridayStore_avg_other 6 (by norm_num) (by norm_num)]
  norm_num

lemma fridayStore_highRiskDays :
    highRiskDaysOf fridayStore.transactions = ["Friday"] := by
  unfold highRiskDaysOf
  rw [show List.range 7 = [0, 1, 2, 3, 4, 5, 6] from rfl]
  rw [show List.filter
      (fun i => decide (avgByDayOf fridayStore.transactions i >
        13 / 10 * overallDayAvgOf fridayStore.transactions)) [0, 1, 2, 3, 4, 5, 6] = [5] from ?_]
  · rfl
  · have c5 : decide (avgByDayOf fridayStore.transactions 5 >
        13 / 10 * overallDayAvgOf fridayStore.transactions) = true := by
      rw [decide_eq_true_eq, fridayStore_avg_five, fridayStore_overall]
      norm_num
    have cother : ∀ i, i < 7 → i ≠ 5 → decide (avgByDayOf fridayStore.transactions i >
        13 / 10 * overallDayAvgOf fridayStore.transactions) = false := by
      intro i h1 h2
      rw [decide_eq_false_iff_not, fridayStore_avg_other i h1 h2, fridayStore_overall]
      norm_num
    simp only [List.filter_cons, List.filter_nil, c5,
      cother 0 (by norm_num) (by norm_num), cother 1 (by norm_num) (by norm_num),
      cother 2 (by norm_num) (by norm_num), cother 3 (by norm_num) (by norm_num),
      cother 4 (by norm_num) (by norm_num), cother 6 (by norm_num) (by norm_num),
      Bool.false_eq_true, if_false, if_true]

lemma fridayStore_risk_first :
    calculateRiskScore fridayStore DEFAULT_PATTERN ⟨2025, 5, 20⟩ = 50 := by
  unfold calculateRiskScore riskAdjDaysToPayday riskAdjSafeSpend riskAdjHighRiskDay
    riskAdjBalanceUsage riskAdjStreak
  norm_num [fridayStore, DEFAULT_PATTERN]

lemma fridayStore_risk_second :
    calculateRiskScore fridayStore
      (analyzePatterns fridayStore ⟨2025, 5, 20⟩ DEFAULT_PATTERN) ⟨2025, 5, 20⟩ = 65 := by
  have hlen : ¬ fridayStore.transactions.length < 7 := by decide
  have hhr : (analyzePatterns fridayStore ⟨2025, 5, 20⟩ DEFAULT_PATTERN).highRiskDays =
      ["Friday"] := by
    rw [analyzePatterns_highRiskDays _ _ _ hlen, fridayStore_highRiskDays]
  have hcs : (analyzePatterns fridayStore ⟨2025, 5, 20⟩ DEFAULT_PATTERN).currentStreak = 0 :=
    analyzePatterns_currentStreak _ _ _
  have hdn : dayName ⟨2025, 5, 20⟩ = "Friday" := by decide
  unfold calculateRiskScore riskAdjDaysToPayday riskAdjSafeSpend riskAdjHighRiskDay
    riskAdjBalanceUsage riskAdjStreak
  rw [hhr, hcs, hdn]
  norm_num [fridayStore]

/-- C9 (counterexample): invoking the pattern analysis twice on the same
transaction list with the same date is not idempotent: on `fridayStore`
(seven Friday transactions) with today a Friday, the first invocation
stores risk score 50, but the second stores 65, because the second
risk score of the second invocation reads the `highRiskDays = ["Friday"]` written by
the first.  So a hidden input other than the transaction list and "today"
— the previously stored pattern — affects the result. -/
theorem C9_not_idempotent_counterexample :
    analyzePatterns fridayStore ⟨2025, 5, 20⟩
        (analyzePatterns fridayStore ⟨2025, 5, 20⟩ DEFAULT_PATTERN) ≠
      analyzePatterns fridayStore ⟨2025, 5, 20⟩ DEFAULT_PATTERN := by
  intro heq
  have hlen : ¬ fridayStore.transactions.length < 7 := by decide
  have h1 : (analyzePatterns fridayStore ⟨2025, 5, 20⟩ DEFAULT_PATTERN).riskScore = 50 := by
    simp only [analyzePatterns, if_neg hlen]
    exact fridayStore_risk_first
  have h2 : (analyzePatterns fridayStore ⟨2025, 5, 20⟩
      (analyzePatterns fridayStore ⟨2025, 5, 20⟩ DEFAULT_PATTERN)).riskScore = 65 := by
    simp only [analyzePatterns, if_neg hlen]
    exact fridayStore_risk_second
  rw [heq, h1] at h2
  exact absurd h2 (by decide)

/-! ### Claim C10: proactive alert priority -/

/-- C10 (counterexample): at an input where both the weekend-warning
condition (Friday 2025-06-20, 6 PM, `weekend_spending` trigger present) and
the danger-zone condition (3 days to payday with safe spend 1000, i.e.
`≤ 5` and `< 5000` for the pattern store, `≤ 7` and `≤ 10000` for the
check-in service) hold, both alert selectors surface the weekend warning,
not the danger-zone alert that the priority order of the claim demands. -/
theorem C10_priority_counterexample :
    getHighRiskAlert
        { transactions := [], safeSpendToday := 1000, daysToPayday := 3,
          currentBalance := 0, spentThisMonth := 0 }
        { DEFAULT_PATTERN with overspendTriggers := ["weekend_spending"] }
        ⟨2025, 5, 20⟩ 18 = some "weekend_warning" ∧
    shouldShowProactiveMessage
        { transactions := [], safeSpendToday := 1000, daysToPayday := 3,
          currentBalance := 0, spentThisMonth := 0 }
        { DEFAULT_PATTERN with overspendTriggers := ["weekend_spending"] }
        (some 25) ⟨2025, 5, 20⟩ 18 = some "weekend_warning" ∧
    (some "weekend_warning" : Option String) ≠ some "danger_zone" := by decide

/-- C10 (amended): both alert selectors surface exactly one alert, the
first applicable rule in source order, but the fixed priority is
weekend-warning > danger-zone (not danger-zone first): in
`getHighRiskAlert` a Friday-evening with the `weekend_spending` trigger
always yields the weekend warning and the danger zone fires only when that
condition fails; in `shouldShowProactiveMessage` the Friday 5–8 PM window
is checked first and the danger zone fires outside it. -/
theorem C10_priority_order :
    (∀ (store : TransactionStoreState) (pattern : SpendingPattern) (today : CivilDate)
        (hour : Int),
        dayName today = "Friday" → 17 ≤ hour →
        pattern.overspendTriggers.contains "weekend_spending" = true →
        getHighRiskAlert store pattern today hour = some "weekend_warning") ∧
    (∀ (store : TransactionStoreState) (pattern : SpendingPattern) (today : CivilDate)
        (hour : Int),
        ¬ (dayName today = "Friday" ∧ hour ≥ 17 ∧
            pattern.overspendTriggers.contains "weekend_spending" = true) →
        store.daysToPayday ≤ 5 → store.safeSpendToday < 5000 →
        getHighRiskAlert store pattern today hour = some "danger_zone") ∧
    (∀ (store : TransactionStoreState) (pattern : SpendingPattern) (payday : Option Int)
        (today : CivilDate) (hour : Int),
        getDay today = 5 → 17 ≤ hour → hour < 20 →
        pattern.overspendTriggers.contains "weekend_spending" = true →
        shouldShowProactiveMessage store pattern payday today hour = some "weekend_warning") ∧
    (∀ (store : TransactionStoreState) (pattern : SpendingPattern) (payday : Option Int)
        (today : CivilDate) (hour : Int),
        ¬ (getDay today = 5 ∧ 17 ≤ hour ∧ hour < 20) →
        store.daysToPayday ≤ 7 → store.safeSpendToday ≤ 10000 →
        shouldShowProactiveMessage store pattern payday today hour = some "danger_zone") := by
  refine ⟨?_, ?_, ?_, ?_⟩
  · intro s pat t hour h1 h2 h3
    unfold getHighRiskAlert
    rw [if_pos ⟨h1, h2, h3⟩]
  · intro s pat t hour hng h1 h2
    unfold getHighRiskAlert
    rw [if_neg hng, if_pos ⟨h1, h2⟩]
  · intro s pat payday t hour h1 h2 h3 h4
    unfold shouldShowProactiveMessage
    rw [if_pos ⟨h1, h2, h3⟩]
    unfold generateWeekendWarning
    rw [if_neg (fun hc => hc.1 h4)]
  · intro s pat payday t hour hng h1 h2
    unfold shouldShowProactiveMessage
    rw [if_neg hng]
    unfold generateDangerZoneAlert
    rw [if_neg (by push_neg; exact ⟨h1, h2⟩)]

/-- C10 (witness): the four parts of the priority characterisation at
concrete inputs: a Friday evening with the trigger set surfaces the
weekend warning in both selectors; a Thursday in the danger zone surfaces
the danger-zone alert in both. -/
theorem C10_priority_order_witness :
    getHighRiskAlert
        { transactions := [], safeSpendToday := 9000, daysToPayday := 20,
          currentBalance := 0, spentThisMonth := 0 }
        { DEFAULT_PATTERN with overspendTriggers := ["weekend_spending"] }
        ⟨2025, 5, 20⟩ 18 = some "weekend_warning" ∧
    getHighRiskAlert
        { transactions := [], safeSpendToday := 1000, daysToPayday := 3,
          currentBalance := 0, spentThisMonth := 0 }
        DEFAULT_PATTERN ⟨2025, 5, 19⟩ 10 = some "danger_zone" ∧
    shouldShowProactiveMessage
        { transactions := [], safeSpendToday := 9000, daysToPayday := 20,
          currentBalance := 0, spentThisMonth := 0 }
        { DEFAULT_PATTERN with overspendTriggers := ["weekend_spending"] }
        (some 25) ⟨2025, 5, 20⟩ 18 = some "weekend_warning" ∧
    shouldShowProactiveMessage
        { transactions := [], safeSpendToday := 1000, daysToPayday := 3,
          currentBalance := 0, spentThisMonth := 0 }
        DEFAULT_PATTERN (some 25) ⟨2025, 5, 19⟩ 10 = some "danger_zone" :=
  ⟨C10_priority_order.1 _ _ ⟨2025, 5, 20⟩ 18 (by decide) (by decide) (by decide),
    C10_priority_order.2.1 _ _ ⟨2025, 5, 19⟩ 10 (by decide) (by decide) (by decide),
    C10_priority_order.2.2.1 _ _ (some 25) ⟨2025, 5, 20⟩ 18 (by decide) (by decide)
      (by decide) (by decide),
    C10_priority_order.2.2.2 _ _ (some 25) ⟨2025, 5, 19⟩ 10 (by decide) (by decide)
      (by decide)⟩

end Kora

namespace Kora

-- Cross-checks of the calendar model against known JS Date behaviour.
example : monthLength 2025 1 = 28 := by decide
example : monthLength 2024 1 = 29 := by decide
example : getDay ⟨2025, 5, 20⟩ = 5 := by decide
example : getDay ⟨1970, 0, 1⟩ = 4 := by decide
example : jsMkDate 2025 1 31 = ⟨2025, 2, 3⟩ := by decide
example : jsMkDate 2025 12 5 = ⟨2026, 0, 5⟩ := by decide
example : jsMkDate 2025 2 0 = ⟨2025, 1, 28⟩ := by decide
example : FinanceService.calculateDaysToPayday ⟨2025, 0, 31⟩ 31 = 28 := by decide
example : FinanceEngine.calculateDaysToPayday ⟨2025, 0, 31⟩ 31 = 0 := by decide
example : AiRoute.calculateDaysToPayday ⟨2025, 0, 31⟩ 31 = 31 := by decide
example : FinanceService.calculateDaysToPayday ⟨2025, 5, 15⟩ 15 = 30 := by decide

end Kora
